import Mathlib

/-!
Verification development for the `buildsys` build-orchestration tool
(`src/tools/buildsys/src/main.rs`).

The tool prepares and triggers a containerized build for a package or a
system variant.  We embed the orchestration core shallowly:

* TOML documents become the inductive `Value`;
* manifests become records of the optional fields the core consumes;
* the process's observable actions (cargo `rerun-if-changed` /
  `rerun-if-env-changed` lines, file reads and writes, collaborator
  invocations) become an explicit trace of `Event`s;
* the two pipelines `build_package` / `build_variant` become pure functions
  from their inputs to a trace plus an optional error.

External collaborators (manifest and spec parsing, the lookaside cache,
vendoring, crawling, the Docker backend) are out of scope; their *results*
are inputs to the pipeline functions and their invocations are trace events.
-/

namespace Buildsys

/-- A TOML value, as produced by the `toml` crate: strings, integers,
booleans, arrays and tables.  Tables are association lists of key/value
pairs with distinct keys. -/
inductive Value where
  | str (s : String)
  | int (n : Int)
  | bool (b : Bool)
  | array (elems : List Value)
  | table (entries : List (String × Value))

mutual

/-- Modelled from the spec: `merge_values` from the `merge_toml` crate is not
under `src/`; only its call site in `generate_defaults_toml` is.  The spec
says: later files' scalar values override earlier files' at the same key
path, nested tables merge key-wise rather than being replaced wholesale, and
array values are replaced wholesale, not concatenated.  `mergeValues a b`
deep-merges the later document `b` into the accumulator `a`. -/
def mergeValues : Value → Value → Value
  | Value.table a, Value.table b => Value.table (mergeTable a b)
  | _, b => b
termination_by _ b => (sizeOf b, 0)

/-- Merge each entry of the later table `b` into the accumulated table `a`,
key-wise, in order. -/
def mergeTable (a : List (String × Value)) : List (String × Value) → List (String × Value)
  | [] => a
  | (k, v) :: rest => mergeTable (mergeEntry a k v) rest
termination_by b => (sizeOf b, 1)

/-- Merge one later entry `(k, v)` into the accumulated table: if `k` is
already present its value is deep-merged with `v`, otherwise `(k, v)` is
appended. -/
def mergeEntry : List (String × Value) → String → Value → List (String × Value)
  | [], k, v => [(k, v)]
  | (k', w) :: as, k, v =>
      if k' = k then (k', mergeValues w v) :: as
      else (k', w) :: mergeEntry as k v
termination_by a _ v => (sizeOf v, 2 + sizeOf a)

end

mutual

/-- Decidable equality for `Value` (the `deriving` handler does not support
the nesting through `List`). -/
def decEqValue : (a b : Value) → Decidable (a = b)
  | Value.str s, Value.str t =>
      match decEq s t with
      | isTrue h => isTrue (by rw [h])
      | isFalse h => isFalse (fun hh => h (by cases hh; rfl))
  | Value.str _, Value.int _ => isFalse (fun h => Value.noConfusion h)
  | Value.str _, Value.bool _ => isFalse (fun h => Value.noConfusion h)
  | Value.str _, Value.array _ => isFalse (fun h => Value.noConfusion h)
  | Value.str _, Value.table _ => isFalse (fun h => Value.noConfusion h)
  | Value.int _, Value.str _ => isFalse (fun h => Value.noConfusion h)
  | Value.int m, Value.int n =>
      match decEq m n with
      | isTrue h => isTrue (by rw [h])
      | isFalse h => isFalse (fun hh => h (by cases hh; rfl))
  | Value.int _, Value.bool _ => isFalse (fun h => Value.noConfusion h)
  | Value.int _, Value.array _ => isFalse (fun h => Value.noConfusion h)
  | Value.int _, Value.table _ => isFalse (fun h => Value.noConfusion h)
  | Value.bool _, Value.str _ => isFalse (fun h => Value.noConfusion h)
  | Value.bool _, Value.int _ => isFalse (fun h => Value.noConfusion h)
  | Value.bool a, Value.bool b =>
      match decEq a b with
      | isTrue h => isTrue (by rw [h])
      | isFalse h => isFalse (fun hh => h (by cases hh; rfl))
  | Value.bool _, Value.array _ => isFalse (fun h => Value.noConfusion h)
  | Value.bool _, Value.table _ => isFalse (fun h => Value.noConfusion h)
  | Value.array _, Value.str _ => isFalse (fun h => Value.noConfusion h)
  | Value.array _, Value.int _ => isFalse (fun h => Value.noConfusion h)
  | Value.array _, Value.bool _ => isFalse (fun h => Value.noConfusion h)
  | Value.array xs, Value.array ys =>
      match decEqValueList xs ys with
      | isTrue h => isTrue (by rw [h])
      | isFalse h => isFalse (fun hh => h (by cases hh; rfl))
  | Value.array _, Value.table _ => isFalse (fun h => Value.noConfusion h)
  | Value.table _, Value.str _ => isFalse (fun h => Value.noConfusion h)
  | Value.table _, Value.int _ => isFalse (fun h => Value.noConfusion h)
  | Value.table _, Value.bool _ => isFalse (fun h => Value.noConfusion h)
  | Value.table _, Value.array _ => isFalse (fun h => Value.noConfusion h)
  | Value.table xs, Value.table ys =>
      match decEqEntryList xs ys with
      | isTrue h => isTrue (by rw [h])
      | isFalse h => isFalse (fun hh => h (by cases hh; rfl))
termination_by a _ => (sizeOf a, 0)

/-- Decidable equality for lists of `Value`s. -/
def decEqValueList : (a b : List Value) → Decidable (a = b)
  | [], [] => isTrue rfl
  | [], _ :: _ => isFalse (fun h => List.noConfusion h)
  | _ :: _, [] => isFalse (fun h => List.noConfusion h)
  | x :: xs, y :: ys =>
      match decEqValue x y with
      | isFalse h => isFalse (fun hh => h (by cases hh; rfl))
      | isTrue h1 =>
          match decEqValueList xs ys with
          | isTrue h2 => isTrue (by rw [h1, h2])
          | isFalse h => isFalse (fun hh => h (by cases hh; rfl))
termination_by a _ => (sizeOf a, 1)

/-- Decidable equality for table entry lists. -/
def decEqEntryList : (a b : List (String × Value)) → Decidable (a = b)
  | [], [] => isTrue rfl
  | [], _ :: _ => isFalse (fun h => List.noConfusion h)
  | _ :: _, [] => isFalse (fun h => List.noConfusion h)
  | (k, v) :: xs, (k', v') :: ys =>
      match decEq k k' with
      | isFalse h => isFalse (fun hh => h (by cases hh; rfl))
      | isTrue hk =>
          match decEqValue v v' with
          | isFalse h => isFalse (fun hh => h (by cases hh; rfl))
          | isTrue hv =>
              match decEqEntryList xs ys with
              | isTrue h2 => isTrue (by rw [hk, hv, h2])
              | isFalse h => isFalse (fun hh => h (by cases hh; rfl))
termination_by a _ => (sizeOf a, 2)

end

instance : DecidableEq Value := decEqValue

/-- The closed four-way classification of specific variant sensitivity kinds
(`buildsys::manifest::SensitivityType`). -/
inductive SensitivityType where
  | platform
  | runtime
  | family
  | flavor
deriving DecidableEq

/-- A package's declared sensitivity to variant identity
(`buildsys::manifest::VariantSensitivity`): either `Any(bool)` or
`Specific(kind)`. -/
inductive VariantSensitivity where
  | any (b : Bool)
  | specific (t : SensitivityType)
deriving DecidableEq

/-- Bundle-module kinds for external files; currently only Go vendoring
(`buildsys::manifest::BundleModule`). -/
inductive BundleModule where
  | go
deriving DecidableEq

/-- One externally sourced artifact descriptor, reduced to the field the
orchestration core inspects: the optional list of bundle-module kinds. -/
structure ExternalFile where
  bundle_modules : Option (List BundleModule)

/-- Modelled from the spec: the manifest provider (`buildsys::manifest`,
the crate behind `ManifestInfo`) is not under `src/`; the spec describes it
as a read-only view exposing these optional fields.  Feature names are
strings; architectures are their string names. -/
structure ManifestInfo where
  image_features : Option (List String)
  package_features : Option (List String)
  variant_sensitive : Option VariantSensitivity
  external_files : Option (List ExternalFile)
  source_groups : Option (List String)
  package_name : Option String
  supported_arches : Option (List String)
  included_packages : Option (List String)
  defaults_dir : Option String

/-- Parsed RPM spec info (`spec::SpecInfo`): source and patch paths. -/
structure SpecInfo where
  sources : List String
  patches : List String

/-- CLI arguments consumed by the package pipeline (`args::BuildPackageArgs`,
flattened with its common part). -/
structure BuildPackageArgs where
  root_dir : String
  variant : String
  cargo_manifest_dir : String
  arch : String
  sources_dir : String
  cargo_package_name : String

/-- CLI arguments consumed by the variant pipeline (`args::BuildVariantArgs`,
flattened with its common part). -/
structure BuildVariantArgs where
  root_dir : String
  cargo_manifest_dir : String
  arch : String

/-- `PathBuf::join` for our string paths. -/
def joinPath (a b : String) : String := a ++ "/" ++ b

/-- The pipeline errors the orchestration core itself produces.  Collaborator
failures are out of scope (collaborators are modelled as succeeding), so the
only error left is the architecture gate's. -/
inductive BuildsysError where
  | unsupportedArch (arch : String) (supported_arches : List String)
deriving DecidableEq

/-- One observable action of the process: a cargo dependency signal
(`rerun-if-changed` for a file path, `rerun-if-env-changed` for an
environment variable), a file read, the pure feature-filtering step
(lines 176-181, kept as a marker so emission order is visible in the
trace), a collaborator invocation, the defaults write, or the skip
warning.  `renameFile` is what an `fs::rename` call would map to; the
source never performs one. -/
inductive Event where
  | rerunFile (path : String)
  | rerunEnv (var : String)
  | readManifest (path : String)
  | readSpec (path : String)
  | readFile (path : String)
  | filterFeatures
  | fetchExternal
  | vendorGo
  | crawlSources (dirs : List String)
  | writeFile (path : String) (data : Value)
  | renameFile (src dst : String)
  | dockerBuildPackage (features : List String)
  | dockerBuildVariant
  | warnSkip
deriving DecidableEq

/-- Does the event watch the file path `p`? -/
def Event.isRerunFile (p : String) : Event → Bool
  | Event.rerunFile q => q = p
  | _ => false

/-- Does the event watch the environment variable `v`? -/
def Event.isRerunEnv (v : String) : Event → Bool
  | Event.rerunEnv w => w = v
  | _ => false

/-- Is the event a manifest read of path `p`? -/
def Event.isReadManifest (p : String) : Event → Bool
  | Event.readManifest q => q = p
  | _ => false

/-- Is the event a spec-file read of path `p`? -/
def Event.isReadSpec (p : String) : Event → Bool
  | Event.readSpec q => q = p
  | _ => false

/-- Is the event the pure feature-filtering step? -/
def Event.isFilterFeatures : Event → Bool
  | Event.filterFeatures => true
  | _ => false

/-- Is the event an expensive collaborator invocation: a lookaside-cache
fetch, module vendoring, or a container build? -/
def Event.isExpensive : Event → Bool
  | Event.fetchExternal => true
  | Event.vendorGo => true
  | Event.dockerBuildPackage _ => true
  | Event.dockerBuildVariant => true
  | _ => false

/-- Is the event a write of file `p`? -/
def Event.isWriteTo (p : String) : Event → Bool
  | Event.writeFile q _ => q = p
  | _ => false

/-- Is the event a rename? -/
def Event.isRename : Event → Bool
  | Event.renameFile _ _ => true
  | _ => false

/-- Is the event a variant container build? -/
def Event.isDockerBuildVariant : Event → Bool
  | Event.dockerBuildVariant => true
  | _ => false

/-- Is the event the skip warning? -/
def Event.isWarnSkip : Event → Bool
  | Event.warnSkip => true
  | _ => false

/-- `main.rs` lines 296-310: ensure the requested architecture is supported
by the manifest.  `supported_arches.iter().map(to_string)` is the identity
here because architectures are modelled by their string names. -/
def supported_arch (manifest : ManifestInfo) (arch : String) :
    Except BuildsysError Unit :=
  match manifest.supported_arches with
  | some supported_arches =>
      if supported_arches.contains arch then Except.ok ()
      else Except.error (BuildsysError.unsupportedArch arch supported_arches)
  | none => Except.ok ()

/-- The feature negotiation of `main.rs` lines 157 and 176-181: start from
the variant's ambient image features; if the package declares tracked
features, retain only ambient entries the package tracks; if it declares
none, clear the map; if the variant declares no ambient features, the
result stays `None`. -/
def negotiate (image_features package_features : Option (List String)) :
    Option (List String) :=
  match image_features with
  | none => none
  | some feats =>
      match package_features with
      | some pfs => some (feats.filter (fun k => pfs.contains k))
      | none => some []

/-- The environment variable watched for one tracked package feature
(`main.rs` lines 168-171). -/
def feature_env_var (f : String) : String :=
  "BUILDSYS_VARIANT_IMAGE_FEATURE_" ++ f

/-- `emit_variant_env` of `main.rs` lines 187-196, returning the emitted
variable names instead of printing them. -/
def emit_variant_env : Option String → List String
  | some suffix => ["BUILDSYS_VARIANT_" ++ suffix.toUpper]
  | none => ["BUILDSYS_VARIANT"]

/-- The sensitivity match of `main.rs` lines 185-205 (with `None` for the
missing declaration, in which case the `if let` body is skipped), as the
list of environment-variable names it emits. -/
def resolveSensitivity : Option VariantSensitivity → List String
  | none => []
  | some (VariantSensitivity.any false) => []
  | some (VariantSensitivity.any true) => emit_variant_env none
  | some (VariantSensitivity.specific SensitivityType.platform) =>
      emit_variant_env (some "platform")
  | some (VariantSensitivity.specific SensitivityType.runtime) =>
      emit_variant_env (some "runtime")
  | some (VariantSensitivity.specific SensitivityType.family) =>
      emit_variant_env (some "family")
  | some (VariantSensitivity.specific SensitivityType.flavor) =>
      emit_variant_env (some "flavor")

/-- Ordering of directory entries by file name, as configured on the walker
(`.sort_by(|a, b| a.file_name().cmp(b.file_name()))`, line 321).  A
directory listing is a list of (file name, parsed TOML content) pairs:
direct children only, mirroring `min_depth(1).max_depth(1)` with
`follow_links(true)`. -/
def fileNameLE (a b : String × Value) : Prop := a.1 ≤ b.1

instance : DecidableRel fileNameLE :=
  fun a b => inferInstanceAs (Decidable (a.1 ≤ b.1))

/-- `ends_with(".toml")` on a file name, computed on the character list. -/
def hasTomlSuffix (s : String) : Bool := ".toml".data.isSuffixOf s.data

/-- The fragments `generate_defaults_toml` processes (`main.rs` lines
317-323): the directory's entries sorted ascending by file name, keeping
only names ending in `.toml`. -/
def selectedFragments (dir : List (String × Value)) : List (String × Value) :=
  (List.insertionSort fileNameLE dir).filter (fun e => hasTomlSuffix e.1)

/-- The merged defaults document (`main.rs` lines 326-340): fold
`merge_values` over the selected fragments starting from the empty table. -/
def mergedDefaults (dir : List (String × Value)) : Value :=
  (selectedFragments dir).foldl (fun defaults e => mergeValues defaults e.2)
    (Value.table [])

/-- The fixed output path of the merged defaults document (`main.rs`
line 345). -/
def defaultsOutputPath (root_dir : String) : String :=
  joinPath root_dir "build/tools/defaults.toml"

/-- `generate_defaults_toml` of `main.rs` lines 314-348 as its event trace:
if no defaults directory is declared, nothing happens; otherwise each
selected fragment is signalled and read in sorted order, and the merged
document is written to the fixed output path with a single direct
`fs::write` (line 346). -/
def generate_defaults_toml (manifest : ManifestInfo) (root_dir : String)
    (dir : List (String × Value)) : List Event :=
  match manifest.defaults_dir with
  | none => []
  | some dd =>
      ((selectedFragments dir).map
        (fun e => [Event.rerunFile (joinPath dd e.1),
                   Event.readFile (joinPath dd e.1)])).flatten
      ++ [Event.writeFile (defaultsOutputPath root_dir) (mergedDefaults dir)]

/-- The variant manifest path the package pipeline reads (`main.rs` lines
148-153): `root_dir/variants/<variant>/Cargo.toml`. -/
def variant_manifest_path (args : BuildPackageArgs) : String :=
  joinPath (joinPath (joinPath args.root_dir "variants") args.variant)
    "Cargo.toml"

/-- The spec file name (`main.rs` lines 248-253): the overridden package
name when declared, the cargo package name otherwise, suffixed `.spec`. -/
def spec_file (args : BuildPackageArgs) (manifest : ManifestInfo) : String :=
  (match manifest.package_name with
   | some name_override => name_override
   | none => args.cargo_package_name) ++ ".spec"

/-- `build_package` of `main.rs` lines 144-271, as a pure function from the
arguments, the two parsed manifests, the parsed spec and the crawler's
result to the event trace and the outcome.  The trace follows the source's
statement order; on the architecture gate's failure the pipeline aborts
with the events emitted so far. -/
def build_package (args : BuildPackageArgs)
    (variant_manifest manifest : ManifestInfo)
    (spec : SpecInfo) (crawled : List String) :
    List Event × Option BuildsysError :=
  let manifest_file := "Cargo.toml"
  let t1 : List Event :=
    [Event.rerunFile manifest_file,
     Event.readManifest (variant_manifest_path args)]
  match supported_arch variant_manifest args.arch with
  | Except.error e => (t1, some e)
  | Except.ok _ =>
    let image_features := variant_manifest.image_features
    let t2 := t1 ++
      [Event.readManifest (joinPath args.cargo_manifest_dir manifest_file)]
    let package_features := manifest.package_features
    let t3 := t2 ++
      (match package_features with
       | some pfs => pfs.map (fun f => Event.rerunEnv (feature_env_var f))
       | none => [])
    let image_features := negotiate image_features package_features
    let t4 := t3 ++ [Event.filterFeatures]
    let t5 := t4 ++ (resolveSensitivity manifest.variant_sensitive).map
      Event.rerunEnv
    let t6 := t5 ++
      (match manifest.external_files with
       | some files =>
           Event.fetchExternal ::
             (files.map (fun f =>
               match f.bundle_modules with
               | none => []
               | some bs => bs.map (fun _ => Event.vendorGo))).flatten
       | none => [])
    let t7 := t6 ++
      (match manifest.source_groups with
       | some groups =>
           Event.crawlSources (groups.map (joinPath args.sources_dir)) ::
             crawled.map Event.rerunFile
       | none => [])
    let specPath := spec_file args manifest
    let t8 := t7 ++ [Event.rerunFile specPath, Event.readSpec specPath]
    let t9 := t8 ++ spec.sources.map Event.rerunFile
      ++ spec.patches.map Event.rerunFile
    (t9 ++ [Event.dockerBuildPackage (image_features.getD [])], none)

/-- `build_variant` of `main.rs` lines 273-293: emit the manifest signal,
read the manifest, run the architecture gate, aggregate defaults, then
either invoke the variant container build (when included packages are
declared) or emit the skip warning. -/
def build_variant (args : BuildVariantArgs) (manifest : ManifestInfo)
    (dir : List (String × Value)) : List Event × Option BuildsysError :=
  let manifest_file := "Cargo.toml"
  let t1 : List Event :=
    [Event.rerunFile manifest_file,
     Event.readManifest (joinPath args.cargo_manifest_dir manifest_file)]
  match supported_arch manifest args.arch with
  | Except.error e => (t1, some e)
  | Except.ok _ =>
    let t2 := t1 ++ generate_defaults_toml manifest args.root_dir dir
    if manifest.included_packages.isSome then
      (t2 ++ [Event.dockerBuildVariant], none)
    else
      (t2 ++ [Event.warnSkip], none)

/-! ## Helper lemmas -/

/-- `String.toUpper` through the character list, so it can be evaluated. -/
theorem toUpper_data (s : String) :
    s.toUpper = String.mk (s.data.map Char.toUpper) :=
  String.map_eq Char.toUpper s

/-- `emit_variant_env` on the `platform` suffix. -/
theorem emit_variant_env_platform :
    emit_variant_env (some "platform") = ["BUILDSYS_VARIANT_PLATFORM"] := by
  show ["BUILDSYS_VARIANT_" ++ "platform".toUpper] = _
  rw [toUpper_data]
  decide

/-- `emit_variant_env` on the `runtime` suffix. -/
theorem emit_variant_env_runtime :
    emit_variant_env (some "runtime") = ["BUILDSYS_VARIANT_RUNTIME"] := by
  show ["BUILDSYS_VARIANT_" ++ "runtime".toUpper] = _
  rw [toUpper_data]
  decide

/-- `emit_variant_env` on the `family` suffix. -/
theorem emit_variant_env_family :
    emit_variant_env (some "family") = ["BUILDSYS_VARIANT_FAMILY"] := by
  show ["BUILDSYS_VARIANT_" ++ "family".toUpper] = _
  rw [toUpper_data]
  decide

/-- `emit_variant_env` on the `flavor` suffix. -/
theorem emit_variant_env_flavor :
    emit_variant_env (some "flavor") = ["BUILDSYS_VARIANT_FLAVOR"] := by
  show ["BUILDSYS_VARIANT_" ++ "flavor".toUpper] = _
  rw [toUpper_data]
  decide

/-- Every name the sensitivity resolver can emit, as one closed list of
cases. -/
theorem resolveSensitivity_cases (s : Option VariantSensitivity) :
    resolveSensitivity s = [] ∨
    resolveSensitivity s = ["BUILDSYS_VARIANT"] ∨
    resolveSensitivity s = ["BUILDSYS_VARIANT_PLATFORM"] ∨
    resolveSensitivity s = ["BUILDSYS_VARIANT_RUNTIME"] ∨
    resolveSensitivity s = ["BUILDSYS_VARIANT_FAMILY"] ∨
    resolveSensitivity s = ["BUILDSYS_VARIANT_FLAVOR"] := by
  rcases s with _ | (b | t)
  · exact Or.inl rfl
  · cases b
    · exact Or.inl rfl
    · exact Or.inr (Or.inl rfl)
  · rcases t with _ | _ | _ | _
    · exact Or.inr (Or.inr (Or.inl (by
        simpa [resolveSensitivity] using emit_variant_env_platform)))
    · exact Or.inr (Or.inr (Or.inr (Or.inl (by
        simpa [resolveSensitivity] using emit_variant_env_runtime))))
    · exact Or.inr (Or.inr (Or.inr (Or.inr (Or.inl (by
        simpa [resolveSensitivity] using emit_variant_env_family)))))
    · exact Or.inr (Or.inr (Or.inr (Or.inr (Or.inr (by
        simpa [resolveSensitivity] using emit_variant_env_flavor)))))

/-- Any name the sensitivity resolver emits has at most 25 characters. -/
theorem resolveSensitivity_name_short {s : Option VariantSensitivity}
    {name : String} (hmem : name ∈ resolveSensitivity s) : name.length ≤ 25 := by
  rcases resolveSensitivity_cases s with h | h | h | h | h | h <;>
    rw [h] at hmem <;> simp_all <;> subst hmem <;> decide

/-- The per-feature environment-variable name is 31 characters longer than
the feature name. -/
theorem feature_env_var_length (f : String) :
    (feature_env_var f).length = 31 + f.length := by
  have h : "BUILDSYS_VARIANT_IMAGE_FEATURE_".length = 31 := by decide
  simp [feature_env_var, String.length_append, h]

/-- `feature_env_var` is injective. -/
theorem feature_env_var_inj {a b : String}
    (h : feature_env_var a = feature_env_var b) : a = b := by
  have hd := congrArg String.data h
  simp only [feature_env_var, String.data_append] at hd
  exact String.ext (List.append_cancel_left hd)

/-- A per-feature environment variable never collides with a sensitivity
variable. -/
theorem feature_env_var_not_sensitivity {s : Option VariantSensitivity}
    (f : String) : feature_env_var f ∉ resolveSensitivity s := by
  intro hmem
  have h1 := resolveSensitivity_name_short hmem
  have h2 := feature_env_var_length f
  omega

/-- `generate_defaults_toml` with no defaults directory does nothing. -/
theorem generate_defaults_toml_none {m : ManifestInfo} (root : String)
    (dir : List (String × Value)) (hdd : m.defaults_dir = none) :
    generate_defaults_toml m root dir = [] := by
  simp [generate_defaults_toml, hdd]

/-- `generate_defaults_toml` with a defaults directory: signal and read each
selected fragment in order, then write the merged document. -/
theorem generate_defaults_toml_some {m : ManifestInfo} {dd : String}
    (root : String) (dir : List (String × Value))
    (hdd : m.defaults_dir = some dd) :
    generate_defaults_toml m root dir =
      ((selectedFragments dir).map (fun e =>
        [Event.rerunFile (joinPath dd e.1),
         Event.readFile (joinPath dd e.1)])).flatten
      ++ [Event.writeFile (defaultsOutputPath root) (mergedDefaults dir)] := by
  simp [generate_defaults_toml, hdd]

/-- Counting over the per-fragment signal/read events: zero for any
predicate that ignores `rerunFile` and `readFile` events. -/
theorem countP_fragment_events (p : Event → Bool)
    (h1 : ∀ q, p (Event.rerunFile q) = false)
    (h2 : ∀ q, p (Event.readFile q) = false)
    (frag : List (String × Value)) (dd : String) :
    ((frag.map (fun e =>
      [Event.rerunFile (joinPath dd e.1),
       Event.readFile (joinPath dd e.1)])).flatten).countP p = 0 := by
  rw [List.countP_eq_zero]
  intro a ha
  simp only [List.mem_flatten, List.mem_map] at ha
  rcases ha with ⟨lst, ⟨e, _, rfl⟩, hmem⟩
  simp only [List.mem_cons, List.not_mem_nil, or_false] at hmem
  rcases hmem with rfl | rfl
  · simp [h1]
  · simp [h2]

/-- Counting over the whole defaults-aggregation segment, for a predicate
that ignores `rerunFile` and `readFile` events: the count is what the
single write event contributes. -/
theorem countP_generate_defaults_toml_some (p : Event → Bool)
    {m : ManifestInfo} {dd : String} (root : String)
    (dir : List (String × Value)) (hdd : m.defaults_dir = some dd)
    (h1 : ∀ q, p (Event.rerunFile q) = false)
    (h2 : ∀ q, p (Event.readFile q) = false) :
    (generate_defaults_toml m root dir).countP p =
      (if p (Event.writeFile (defaultsOutputPath root) (mergedDefaults dir))
       then 1 else 0) := by
  rw [generate_defaults_toml_some root dir hdd, List.countP_append,
    countP_fragment_events p h1 h2]
  simp [List.countP_cons]

/-- The vendoring events contributed by the external-file loop contain only
`vendorGo` events. -/
theorem countP_vendor_flatten (p : Event → Bool)
    (hvendor : p Event.vendorGo = false) (files : List ExternalFile) :
    ((files.map (fun f =>
      match f.bundle_modules with
      | none => []
      | some bs => bs.map (fun _ => Event.vendorGo))).flatten).countP p = 0 := by
  rw [List.countP_eq_zero]
  intro a ha
  simp only [List.mem_flatten, List.mem_map] at ha
  rcases ha with ⟨lst, ⟨f, _, rfl⟩, hmem⟩
  cases hbm : f.bundle_modules with
  | none => simp only [hbm] at hmem; cases hmem
  | some bs =>
      simp only [hbm, List.mem_map] at hmem
      rcases hmem with ⟨_, _, rfl⟩
      simp [hvendor]

/-- Per-file vendoring-event counts are all zero for a predicate ignoring
`vendorGo`, in the summed form `simp` normalizes to. -/
theorem countP_vendor_sum (p : Event → Bool)
    (hvendor : p Event.vendorGo = false) (files : List ExternalFile) :
    (files.map (fun f => List.countP p
      (match f.bundle_modules with
       | none => []
       | some bs => List.replicate bs.length Event.vendorGo))).sum = 0 := by
  rw [List.sum_eq_zero]
  intro n hn
  simp only [List.mem_map] at hn
  rcases hn with ⟨f, _, rfl⟩
  cases hbm : f.bundle_modules with
  | none => simp
  | some bs =>
      simp only [hbm]
      rw [List.countP_eq_zero]
      intro a ha
      rw [List.eq_of_mem_replicate ha]
      simp [hvendor]

/-- Master counting lemma for the package pipeline: with the architecture
gate passing, the number of events satisfying `p` decomposes over the
trace's segments, for any `p` that ignores the collaborator invocations. -/
theorem countP_build_package (args : BuildPackageArgs)
    (vm m : ManifestInfo) (spec : SpecInfo) (crawled : List String)
    (p : Event → Bool)
    (h : supported_arch vm args.arch = Except.ok ())
    (hfetch : p Event.fetchExternal = false)
    (hvendor : p Event.vendorGo = false)
    (hcrawl : ∀ ds, p (Event.crawlSources ds) = false)
    (hdocker : ∀ fs, p (Event.dockerBuildPackage fs) = false) :
    (build_package args vm m spec crawled).1.countP p =
      (if p (Event.rerunFile "Cargo.toml") then 1 else 0)
      + (if p (Event.readManifest (variant_manifest_path args)) then 1 else 0)
      + (if p (Event.readManifest
          (joinPath args.cargo_manifest_dir "Cargo.toml")) then 1 else 0)
      + (match m.package_features with
         | some pfs =>
             pfs.countP (fun g => p (Event.rerunEnv (feature_env_var g)))
         | none => 0)
      + (if p Event.filterFeatures then 1 else 0)
      + (resolveSensitivity m.variant_sensitive).countP
          (fun v => p (Event.rerunEnv v))
      + (match m.source_groups with
         | some _ => crawled.countP (fun q => p (Event.rerunFile q))
         | none => 0)
      + (if p (Event.rerunFile (spec_file args m)) then 1 else 0)
      + (if p (Event.readSpec (spec_file args m)) then 1 else 0)
      + spec.sources.countP (fun q => p (Event.rerunFile q))
      + spec.patches.countP (fun q => p (Event.rerunFile q)) := by
  simp only [build_package, h]
  cases m.package_features <;> cases hext : m.external_files <;>
    cases m.source_groups <;>
    simp [List.countP_append, List.countP_cons, List.countP_map,
      Function.comp_def, hfetch, hvendor, hcrawl, hdocker,
      countP_vendor_flatten p hvendor, countP_vendor_sum p hvendor] <;>
    omega

/-! ## Claim theorems -/

/-- **C5** Sensitivity resolution is a total pure mapping: for the input
cases no-declaration, `Any(false)`, `Any(true)`, `Specific(Platform)`,
`Specific(Runtime)`, `Specific(Family)`, `Specific(Flavor)` it emits
0, 0, 1, 1, 1, 1, 1 environment-variable dependency signals respectively,
with the fixed names `BUILDSYS_VARIANT` for `Any(true)` and
`BUILDSYS_VARIANT_` suffixed with the upper-cased kind label for each
`Specific` kind; being a total function, it never fails. -/
theorem claim_C5_sensitivity_resolution :
    resolveSensitivity none = [] ∧
    resolveSensitivity (some (VariantSensitivity.any false)) = [] ∧
    resolveSensitivity (some (VariantSensitivity.any true)) =
      ["BUILDSYS_VARIANT"] ∧
    resolveSensitivity
        (some (VariantSensitivity.specific SensitivityType.platform)) =
      ["BUILDSYS_VARIANT_PLATFORM"] ∧
    resolveSensitivity
        (some (VariantSensitivity.specific SensitivityType.runtime)) =
      ["BUILDSYS_VARIANT_RUNTIME"] ∧
    resolveSensitivity
        (some (VariantSensitivity.specific SensitivityType.family)) =
      ["BUILDSYS_VARIANT_FAMILY"] ∧
    resolveSensitivity
        (some (VariantSensitivity.specific SensitivityType.flavor)) =
      ["BUILDSYS_VARIANT_FLAVOR"] :=
  ⟨rfl, rfl, rfl,
   by simpa [resolveSensitivity] using emit_variant_env_platform,
   by simpa [resolveSensitivity] using emit_variant_env_runtime,
   by simpa [resolveSensitivity] using emit_variant_env_family,
   by simpa [resolveSensitivity] using emit_variant_env_flavor⟩

/-- **C1** Feature negotiation: the negotiated result is absent when the
variant's ambient feature map is absent; when both are present it is
exactly the ambient map restricted to names that are members of the
package's tracked set; when the ambient map is present and the tracked set
is absent, it is the empty feature set. -/
theorem claim_C1_feature_negotiation (v p : List String) :
    negotiate none (some p) = none ∧
    negotiate none none = none ∧
    negotiate (some v) (some p) =
      some (v.filter (fun k => decide (k ∈ p))) ∧
    negotiate (some v) none = some [] := by
  refine ⟨rfl, rfl, ?_, rfl⟩
  simp only [negotiate]
  congr 1
  apply List.filter_congr
  intro k _
  rw [Bool.eq_iff_iff]
  simp [List.contains, List.elem_iff]

/-- **C10** At the container-backend boundary the `None`/empty distinction
of negotiation is erased: `unwrap_or_default` maps both the absent result
(variant declared no ambient features) and the emptied result (package
declared no tracked set) to the same empty feature set, and in either case
the package build backend is handed the empty feature set. -/
theorem claim_C10_backend_feature_erasure (args : BuildPackageArgs)
    (vm m : ManifestInfo) (spec : SpecInfo) (crawled : List String)
    (v : List String) (p : Option (List String))
    (h : supported_arch vm args.arch = Except.ok ())
    (hcase : vm.image_features = none ∨ m.package_features = none) :
    (negotiate none p).getD [] = [] ∧
    (negotiate (some v) none).getD [] = [] ∧
    Event.dockerBuildPackage [] ∈ (build_package args vm m spec crawled).1 := by
  refine ⟨by cases p <;> rfl, rfl, ?_⟩
  have hfeat : (negotiate vm.image_features m.package_features).getD [] = [] := by
    rcases hcase with h1 | h1 <;> rw [h1]
    · cases m.package_features <;> rfl
    · cases vm.image_features <;> rfl
  simp only [build_package, h]
  simp [hfeat]

/-- Witness for C10 at a concrete input: variant with no ambient features,
package with no tracked set. -/
theorem claim_C10_witness :
    (negotiate none (some ["a"])).getD [] = [] ∧
    (negotiate (some ["a"]) none).getD [] = [] ∧
    Event.dockerBuildPackage [] ∈
      (build_package ⟨"root", "foo", "pkg", "x86_64", "sources", "mypkg"⟩
        ⟨none, none, none, none, none, none, none, none, none⟩
        ⟨none, none, none, none, none, none, none, none, none⟩
        ⟨[], []⟩ []).1 :=
  claim_C10_backend_feature_erasure _ _ _ _ _ ["a"] (some ["a"]) rfl
    (Or.inl rfl)

/-- **C3** Defaults merge override rule (against the spec-modelled
`mergeValues`): merging `B = {x.y = 3}` into `A = {x.y = 1, x.z = 2}`
overrides the scalar at the shared key path while keeping the sibling key,
nested tables merging key-wise; array values are replaced wholesale, not
concatenated, both at top level and inside a table. -/
theorem claim_C3_defaults_merge_override :
    mergeValues
        (Value.table [("x", Value.table [("y", Value.int 1),
                                         ("z", Value.int 2)])])
        (Value.table [("x", Value.table [("y", Value.int 3)])])
      = Value.table [("x", Value.table [("y", Value.int 3),
                                        ("z", Value.int 2)])] ∧
    mergeValues (Value.array [Value.int 1])
        (Value.array [Value.int 2, Value.int 3])
      = Value.array [Value.int 2, Value.int 3] ∧
    mergeValues
        (Value.table [("a", Value.array [Value.int 1, Value.int 2]),
                      ("b", Value.int 7)])
        (Value.table [("a", Value.array [Value.int 3])])
      = Value.table [("a", Value.array [Value.int 3]), ("b", Value.int 7)] := by
  refine ⟨?_, ?_, ?_⟩ <;> simp [mergeValues, mergeTable, mergeEntry]

/-- **C6** Architecture gate: with no declared supported-architecture set
every requested architecture passes; with a declared set not containing the
request, validation fails with an unsupported-architecture error carrying
the requested architecture and the full supported list; the gate itself is
a pure function (no side effects on success); and in both pipelines a gate
failure means no cache fetch, vendoring, or container invocation occurs. -/
theorem claim_C6_arch_gate (m vmp mp : ManifestInfo) (arch : String)
    (sup : List String) (args : BuildPackageArgs) (vargs : BuildVariantArgs)
    (spec : SpecInfo) (crawled : List String) (dir : List (String × Value))
    (e : BuildsysError) :
    (m.supported_arches = none → supported_arch m arch = Except.ok ()) ∧
    (m.supported_arches = some sup → arch ∉ sup →
      supported_arch m arch =
        Except.error (BuildsysError.unsupportedArch arch sup)) ∧
    (supported_arch vmp args.arch = Except.error e →
      (build_package args vmp mp spec crawled).1.countP Event.isExpensive = 0 ∧
      (build_package args vmp mp spec crawled).2 = some e) ∧
    (supported_arch mp vargs.arch = Except.error e →
      (build_variant vargs mp dir).1.countP Event.isExpensive = 0 ∧
      (build_variant vargs mp dir).2 = some e) := by
  refine ⟨?_, ?_, ?_, ?_⟩
  · intro h
    simp [supported_arch, h]
  · intro h hmem
    simp only [supported_arch, h]
    rw [if_neg]
    intro hcontains
    exact hmem (List.elem_iff.mp hcontains)
  · intro h
    simp only [build_package, h]
    exact ⟨by simp [Event.isExpensive, List.countP_cons], by trivial⟩
  · intro h
    simp only [build_variant, h]
    exact ⟨by simp [Event.isExpensive, List.countP_cons], by trivial⟩

/-- Witness for C6 at concrete inputs: open-world acceptance, the spec's
`armv7` versus `{arm64, x86_64}` failure, and the aborted package pipeline
doing no expensive work. -/
theorem claim_C6_witness :
    supported_arch
        ⟨none, none, none, none, none, none, none, none, none⟩ "armv7" =
      Except.ok () ∧
    supported_arch
        ⟨none, none, none, none, none, none, some ["arm64", "x86_64"],
         none, none⟩ "armv7" =
      Except.error
        (BuildsysError.unsupportedArch "armv7" ["arm64", "x86_64"]) ∧
    (build_package ⟨"root", "foo", "pkg", "armv7", "sources", "mypkg"⟩
        ⟨none, none, none, none, none, none, some ["arm64", "x86_64"],
         none, none⟩
        ⟨none, none, none, none, none, none, none, none, none⟩
        ⟨[], []⟩ []).1.countP Event.isExpensive = 0 := by
  have h := claim_C6_arch_gate
    ⟨none, none, none, none, none, none, none, none, none⟩
    ⟨none, none, none, none, none, none, some ["arm64", "x86_64"],
     none, none⟩
    ⟨none, none, none, none, none, none, none, none, none⟩
    "armv7" ["arm64", "x86_64"]
    ⟨"root", "foo", "pkg", "armv7", "sources", "mypkg"⟩
    ⟨"root", "cmd", "armv7"⟩ ⟨[], []⟩ [] []
    (BuildsysError.unsupportedArch "armv7" ["arm64", "x86_64"])
  have h2 := claim_C6_arch_gate
    ⟨none, none, none, none, none, none, some ["arm64", "x86_64"],
     none, none⟩
    ⟨none, none, none, none, none, none, some ["arm64", "x86_64"],
     none, none⟩
    ⟨none, none, none, none, none, none, none, none, none⟩
    "armv7" ["arm64", "x86_64"]
    ⟨"root", "foo", "pkg", "armv7", "sources", "mypkg"⟩
    ⟨"root", "cmd", "armv7"⟩ ⟨[], []⟩ [] []
    (BuildsysError.unsupportedArch "armv7" ["arm64", "x86_64"])
  refine ⟨h.1 rfl, h2.2.1 rfl (by decide), (h2.2.2.1 ?_).1⟩
  exact h2.2.1 rfl (by decide)

/-- **C9** Variant pipeline skip behavior: with no included-package list the
pipeline still runs defaults aggregation to completion (writing the merged
defaults artifact when a defaults directory is declared), emits the
non-fatal warning, performs no container build invocation and returns
success; with an included-package list the container build backend is
invoked and no warning is emitted. -/
theorem claim_C9_variant_skip (args : BuildVariantArgs) (m : ManifestInfo)
    (dir : List (String × Value)) (dd : String) (l : List String)
    (h : supported_arch m args.arch = Except.ok ()) :
    (m.included_packages = none →
      (build_variant args m dir).2 = none ∧
      (build_variant args m dir).1.countP Event.isDockerBuildVariant = 0 ∧
      (build_variant args m dir).1.countP Event.isWarnSkip = 1 ∧
      (m.defaults_dir = some dd →
        Event.writeFile (defaultsOutputPath args.root_dir) (mergedDefaults dir)
          ∈ (build_variant args m dir).1)) ∧
    (m.included_packages = some l →
      (build_variant args m dir).2 = none ∧
      (build_variant args m dir).1.countP Event.isDockerBuildVariant = 1 ∧
      (build_variant args m dir).1.countP Event.isWarnSkip = 0) := by
  have hdefaults : ∀ p : Event → Bool,
      (∀ q, p (Event.rerunFile q) = false) →
      (∀ q, p (Event.readFile q) = false) →
      (∀ q v, p (Event.writeFile q v) = false) →
      (generate_defaults_toml m args.root_dir dir).countP p = 0 := by
    intro p h1 h2 h3
    cases hdd : m.defaults_dir with
    | none => rw [generate_defaults_toml_none args.root_dir dir hdd]; rfl
    | some dd' =>
        rw [countP_generate_defaults_toml_some p args.root_dir dir hdd h1 h2]
        simp [h3]
  constructor
  · intro hinc
    simp only [build_variant, h, hinc, Option.isSome_none, Bool.false_eq_true,
      if_false]
    refine ⟨by trivial, ?_, ?_, ?_⟩
    · simp [List.countP_append, List.countP_cons, Event.isDockerBuildVariant,
        hdefaults Event.isDockerBuildVariant (fun _ => rfl) (fun _ => rfl)
          (fun _ _ => rfl)]
    · simp [List.countP_append, List.countP_cons, Event.isWarnSkip,
        hdefaults Event.isWarnSkip (fun _ => rfl) (fun _ => rfl)
          (fun _ _ => rfl)]
    · intro hdd
      rw [generate_defaults_toml_some args.root_dir dir hdd]
      simp
  · intro hinc
    simp only [build_variant, h, hinc, Option.isSome_some, if_true]
    refine ⟨by trivial, ?_, ?_⟩
    · simp [List.countP_append, List.countP_cons, Event.isDockerBuildVariant,
        hdefaults Event.isDockerBuildVariant (fun _ => rfl) (fun _ => rfl)
          (fun _ _ => rfl)]
    · simp [List.countP_append, List.countP_cons, Event.isWarnSkip,
        hdefaults Event.isWarnSkip (fun _ => rfl) (fun _ => rfl)
          (fun _ _ => rfl)]

/-- Witness for C9 at a concrete input: a manifest with no included
packages and a declared defaults directory over an empty listing. -/
theorem claim_C9_witness :
    ((build_variant ⟨"root", "cmd", "x86_64"⟩
        ⟨none, none, none, none, none, none, none, none, some "d"⟩ []).2
      = none ∧
    (build_variant ⟨"root", "cmd", "x86_64"⟩
        ⟨none, none, none, none, none, none, none, none, some "d"⟩
        []).1.countP Event.isDockerBuildVariant = 0 ∧
    (build_variant ⟨"root", "cmd", "x86_64"⟩
        ⟨none, none, none, none, none, none, none, none, some "d"⟩
        []).1.countP Event.isWarnSkip = 1 ∧
    ((⟨none, none, none, none, none, none, none, none, some "d"⟩ :
        ManifestInfo).defaults_dir = some "d" →
      Event.writeFile (defaultsOutputPath "root") (mergedDefaults [])
        ∈ (build_variant ⟨"root", "cmd", "x86_64"⟩
            ⟨none, none, none, none, none, none, none, none, some "d"⟩
            []).1)) :=
  (claim_C9_variant_skip ⟨"root", "cmd", "x86_64"⟩
    ⟨none, none, none, none, none, none, none, none, some "d"⟩
    [] "d" [] rfl).1 rfl

/-- **C8 (counterexample)** The claim says the defaults write is performed
by atomic replacement (write-then-rename or equivalent).  In the embedding
an `fs::rename` would appear as a `renameFile` event; at this concrete
input the variant pipeline writes the merged defaults document to its
output path yet its trace contains no rename at all, so the single durable
side effect is a direct, non-atomic `fs::write` (line 346). -/
theorem claim_C8_counterexample :
    ((build_variant ⟨"root", "cmd", "x86_64"⟩
        ⟨none, none, none, none, none, none, none, none, some "d"⟩ []).1.countP
      (Event.isWriteTo (defaultsOutputPath "root")) = 1) ∧
    ((build_variant ⟨"root", "cmd", "x86_64"⟩
        ⟨none, none, none, none, none, none, none, none, some "d"⟩ []).1.countP
      Event.isRename = 0) := by
  decide

/-- **C8 (amended)** The single durable side effect is one direct write of
the fully merged defaults document to the fixed output path under the build
root — a plain `fs::write`, with no rename step, so the replacement is not
atomic and an interrupted run can leave the file partially written. -/
theorem claim_C8_defaults_write_direct (args : BuildVariantArgs)
    (m : ManifestInfo) (dir : List (String × Value)) (dd : String)
    (h : supported_arch m args.arch = Except.ok ())
    (hdd : m.defaults_dir = some dd) :
    (build_variant args m dir).1.countP
        (Event.isWriteTo (defaultsOutputPath args.root_dir)) = 1 ∧
    (build_variant args m dir).1.countP Event.isRename = 0 ∧
    Event.writeFile (defaultsOutputPath args.root_dir) (mergedDefaults dir)
      ∈ (build_variant args m dir).1 := by
  have hwrite := countP_generate_defaults_toml_some
    (Event.isWriteTo (defaultsOutputPath args.root_dir)) args.root_dir dir hdd
    (fun _ => rfl) (fun _ => rfl)
  have hrename := countP_generate_defaults_toml_some
    Event.isRename args.root_dir dir hdd (fun _ => rfl) (fun _ => rfl)
  simp only [Event.isWriteTo, decide_True, if_true] at hwrite
  simp at hrename
  simp only [build_variant, h]
  by_cases hinc : m.included_packages.isSome <;>
    simp only [hinc, if_true, if_false] <;>
    refine ⟨?_, ?_, ?_⟩
  · simp [List.countP_append, List.countP_cons, Event.isWriteTo, hwrite]
  · simp [List.countP_append, List.countP_cons, Event.isRename, hrename]
  · rw [generate_defaults_toml_some args.root_dir dir hdd]
    simp
  · simp [List.countP_append, List.countP_cons, Event.isWriteTo, hwrite]
  · simp [List.countP_append, List.countP_cons, Event.isRename, hrename]
  · rw [generate_defaults_toml_some args.root_dir dir hdd]
    simp

/-- Witness for C8 (amended) at a concrete input. -/
theorem claim_C8_witness :
    ((build_variant ⟨"rootw", "cmd", "x86_64"⟩
        ⟨none, none, none, none, none, none, none, some ["pkg"], some "d"⟩
        []).1.countP (Event.isWriteTo (defaultsOutputPath "rootw")) = 1) ∧
    ((build_variant ⟨"rootw", "cmd", "x86_64"⟩
        ⟨none, none, none, none, none, none, none, some ["pkg"], some "d"⟩
        []).1.countP Event.isRename = 0) ∧
    Event.writeFile (defaultsOutputPath "rootw") (mergedDefaults [])
      ∈ (build_variant ⟨"rootw", "cmd", "x86_64"⟩
          ⟨none, none, none, none, none, none, none, some ["pkg"], some "d"⟩
          []).1 :=
  claim_C8_defaults_write_direct ⟨"rootw", "cmd", "x86_64"⟩
    ⟨none, none, none, none, none, none, none, some ["pkg"], some "d"⟩
    [] "d" rfl rfl

/-- Strict ordering of directory entries by file name. -/
def fileNameLT (a b : String × Value) : Prop := a.1 < b.1

instance : IsTotal (String × Value) fileNameLE :=
  ⟨fun a b => le_total a.1 b.1⟩

instance : IsTrans (String × Value) fileNameLE :=
  ⟨fun _ _ _ h1 h2 => le_trans h1 h2⟩

instance : IsAntisymm (String × Value) fileNameLT :=
  ⟨fun _ _ h1 h2 => absurd h2 (lt_asymm h1)⟩

/-- A by-name sorted entry list with pairwise-distinct names is strictly
sorted. -/
theorem sorted_lt_of_nodup_names {l : List (String × Value)}
    (hs : List.Sorted fileNameLE l) (hnd : (l.map Prod.fst).Nodup) :
    List.Sorted fileNameLT l := by
  have hne : l.Pairwise (fun a b => a.1 ≠ b.1) := List.pairwise_map.mp hnd
  exact (hs.and hne).imp fun h => lt_of_le_of_ne h.1 h.2

/-- Sorting by file name is invariant under permutation of a listing with
distinct file names. -/
theorem insertionSort_perm_invariant {dir₁ dir₂ : List (String × Value)}
    (hperm : dir₁.Perm dir₂) (hnd : (dir₁.map Prod.fst).Nodup) :
    List.insertionSort fileNameLE dir₁ =
      List.insertionSort fileNameLE dir₂ := by
  have hnd₂ : (dir₂.map Prod.fst).Nodup := ((hperm.map Prod.fst).nodup_iff).mp hnd
  have hp₁ := List.perm_insertionSort fileNameLE dir₁
  have hp₂ := List.perm_insertionSort fileNameLE dir₂
  have hs₁ : List.Sorted fileNameLT (List.insertionSort fileNameLE dir₁) :=
    sorted_lt_of_nodup_names (List.sorted_insertionSort fileNameLE dir₁)
      ((hp₁.map Prod.fst).nodup_iff.mpr hnd)
  have hs₂ : List.Sorted fileNameLT (List.insertionSort fileNameLE dir₂) :=
    sorted_lt_of_nodup_names (List.sorted_insertionSort fileNameLE dir₂)
      ((hp₂.map Prod.fst).nodup_iff.mpr hnd₂)
  exact List.eq_of_perm_of_sorted (hp₁.trans (hperm.trans hp₂.symm)) hs₁ hs₂

/-- **C4** Defaults fragment selection and ordering: the aggregator keeps
exactly the direct entries whose file name ends in the TOML suffix,
processes them sorted ascending by file name, and the selected sequence,
the merged document, and the whole emitted event sequence (hence the
serialized output) are invariant under the order the directory listing
returned the entries. -/
theorem claim_C4_defaults_enumeration (dir₁ dir₂ : List (String × Value))
    (m : ManifestInfo) (root : String)
    (hperm : dir₁.Perm dir₂) (hnd : (dir₁.map Prod.fst).Nodup) :
    (∀ e ∈ selectedFragments dir₁, hasTomlSuffix e.1 = true) ∧
    List.Sorted fileNameLE (selectedFragments dir₁) ∧
    selectedFragments dir₁ = selectedFragments dir₂ ∧
    mergedDefaults dir₁ = mergedDefaults dir₂ ∧
    generate_defaults_toml m root dir₁ = generate_defaults_toml m root dir₂ := by
  have hsel : selectedFragments dir₁ = selectedFragments dir₂ := by
    unfold selectedFragments
    rw [insertionSort_perm_invariant hperm hnd]
  have hmerged : mergedDefaults dir₁ = mergedDefaults dir₂ := by
    unfold mergedDefaults
    rw [hsel]
  refine ⟨?_, ?_, hsel, hmerged, ?_⟩
  · intro e he
    unfold selectedFragments at he
    have h := List.of_mem_filter he
    simpa using h
  · exact List.Pairwise.sublist (List.filter_sublist _)
      (List.sorted_insertionSort fileNameLE dir₁)
  · unfold generate_defaults_toml
    cases m.defaults_dir <;> simp [hsel, hmerged]

/-- Witness for C4: a three-entry listing and a transposition of it select
the same sorted fragments and merge to the same document. -/
theorem claim_C4_witness :
    (∀ e ∈ selectedFragments
        [("b.toml", Value.int 2), ("a.toml", Value.int 1),
         ("c.txt", Value.int 3)], hasTomlSuffix e.1 = true) ∧
    List.Sorted fileNameLE (selectedFragments
      [("b.toml", Value.int 2), ("a.toml", Value.int 1),
       ("c.txt", Value.int 3)]) ∧
    selectedFragments
        [("b.toml", Value.int 2), ("a.toml", Value.int 1),
         ("c.txt", Value.int 3)] =
      selectedFragments
        [("a.toml", Value.int 1), ("b.toml", Value.int 2),
         ("c.txt", Value.int 3)] ∧
    mergedDefaults
        [("b.toml", Value.int 2), ("a.toml", Value.int 1),
         ("c.txt", Value.int 3)] =
      mergedDefaults
        [("a.toml", Value.int 1), ("b.toml", Value.int 2),
         ("c.txt", Value.int 3)] ∧
    generate_defaults_toml
        ⟨none, none, none, none, none, none, none, none, some "d"⟩ "root"
        [("b.toml", Value.int 2), ("a.toml", Value.int 1),
         ("c.txt", Value.int 3)] =
      generate_defaults_toml
        ⟨none, none, none, none, none, none, none, none, some "d"⟩ "root"
        [("a.toml", Value.int 1), ("b.toml", Value.int 2),
         ("c.txt", Value.int 3)] :=
  claim_C4_defaults_enumeration
    [("b.toml", Value.int 2), ("a.toml", Value.int 1), ("c.txt", Value.int 3)]
    [("a.toml", Value.int 1), ("b.toml", Value.int 2), ("c.txt", Value.int 3)]
    ⟨none, none, none, none, none, none, none, none, some "d"⟩ "root"
    (List.Perm.swap ("a.toml", Value.int 1) ("b.toml", Value.int 2)
      [("c.txt", Value.int 3)])
    (by decide)

/-- In a duplicate-free list containing `f`, exactly one element equals
`f`. -/
theorem countP_eq_one_of_nodup_mem {l : List String} {f : String}
    (hnd : l.Nodup) (hf : f ∈ l) :
    l.countP (fun g => decide (g = f)) = 1 := by
  induction l with
  | nil => cases hf
  | cons a l ih =>
      rw [List.countP_cons]
      rcases List.mem_cons.mp hf with heq | hf'
      · subst heq
        have hz : l.countP (fun g => decide (g = f)) = 0 := by
          rw [List.countP_eq_zero]
          intro g hg
          simp only [decide_eq_true_eq]
          exact fun hh => (List.nodup_cons.mp hnd).1 (hh ▸ hg)
        simp [hz]
      · have ha : a ≠ f := fun hh =>
          (List.nodup_cons.mp hnd).1 (hh ▸ hf')
        rw [ih (List.nodup_cons.mp hnd).2 hf']
        simp [ha]

/-- `takeWhile` over an append whose first part wholly satisfies `p`. -/
theorem takeWhile_append_all {α : Type} {p : α → Bool} {l₁ l₂ : List α}
    (h : ∀ a ∈ l₁, p a = true) :
    (l₁ ++ l₂).takeWhile p = l₁ ++ l₂.takeWhile p := by
  induction l₁ with
  | nil => rfl
  | cons a l ih =>
      simp [List.takeWhile_cons, h a (List.mem_cons_self a l),
        ih (fun b hb => h b (List.mem_cons_of_mem a hb))]

/-- **C2** Feature-tracking signal emission: for every name in the
package's tracked-feature set, exactly one environment-variable dependency
signal `BUILDSYS_VARIANT_IMAGE_FEATURE_<name>` appears in the package
pipeline's trace, regardless of the variant's ambient feature declarations
(the variant manifest `vm` is arbitrary); each such signal is emitted
strictly before the feature-filtering step, which the trace always
reaches.  With a two-element duplicate-free tracked set this gives exactly
two signals, one per feature. -/
theorem claim_C2_feature_signal_emission (args : BuildPackageArgs)
    (vm m : ManifestInfo) (spec : SpecInfo) (crawled : List String)
    (pfs : List String)
    (h : supported_arch vm args.arch = Except.ok ())
    (hpf : m.package_features = some pfs) (hnd : pfs.Nodup) :
    (∀ f ∈ pfs,
      (build_package args vm m spec crawled).1.countP
        (Event.isRerunEnv (feature_env_var f)) = 1) ∧
    (∀ f ∈ pfs,
      Event.rerunEnv (feature_env_var f) ∈
        (build_package args vm m spec crawled).1.takeWhile
          (fun e => !e.isFilterFeatures)) ∧
    Event.filterFeatures ∈ (build_package args vm m spec crawled).1 := by
  refine ⟨?_, ?_, ?_⟩
  · intro f hf
    rw [countP_build_package args vm m spec crawled _ h rfl rfl
      (fun _ => rfl) (fun _ => rfl)]
    have hsens : (resolveSensitivity m.variant_sensitive).countP
        (fun v => decide (v = feature_env_var f)) = 0 := by
      rw [List.countP_eq_zero]
      intro v hv
      simp only [decide_eq_true_eq]
      exact fun hh => feature_env_var_not_sensitivity f (hh ▸ hv)
    have hfeat : pfs.countP
        (fun g => decide (feature_env_var g = feature_env_var f)) = 1 := by
      have hcong : ∀ g ∈ pfs,
          (decide (feature_env_var g = feature_env_var f) = true)
          ↔ (decide (g = f) = true) := by
        intro g _
        simp only [decide_eq_true_eq]
        exact ⟨fun hh => feature_env_var_inj hh, fun hh => by rw [hh]⟩
      rw [List.countP_congr hcong]
      exact countP_eq_one_of_nodup_mem hnd hf
    rw [hpf]
    cases m.source_groups <;>
      simp [Event.isRerunEnv, hsens, hfeat, List.countP_false]
  · intro f hf
    simp only [build_package, h, hpf]
    simp only [List.cons_append, List.nil_append, List.append_assoc]
    rw [List.takeWhile_cons]
    simp only [Event.isFilterFeatures, Bool.not_false, if_true]
    rw [List.takeWhile_cons]
    simp only [Event.isFilterFeatures, Bool.not_false, if_true]
    rw [List.takeWhile_cons]
    simp only [Event.isFilterFeatures, Bool.not_false, if_true]
    rw [takeWhile_append_all (fun a ha => ?_)]
    · simp only [List.takeWhile_cons, Event.isFilterFeatures, Bool.not_true,
        if_false]
      simp only [List.mem_cons, List.mem_append, List.mem_map]
      exact Or.inr (Or.inr (Or.inr (Or.inl ⟨f, hf, rfl⟩)))
    · rcases List.mem_map.mp ha with ⟨g, _, rfl⟩
      rfl
  · simp only [build_package, h, hpf]
    simp [List.mem_append]

/-- Witness for C2 at a concrete input: a package tracking the two features
`fa` and `fb` against a variant with no ambient features. -/
theorem claim_C2_witness :
    (∀ f ∈ ["fa", "fb"],
      (build_package ⟨"root", "foo", "pkg", "x86_64", "sources", "mypkg"⟩
        ⟨none, none, none, none, none, none, none, none, none⟩
        ⟨none, some ["fa", "fb"], none, none, none, none, none, none, none⟩
        ⟨[], []⟩ []).1.countP
          (Event.isRerunEnv (feature_env_var f)) = 1) ∧
    (∀ f ∈ ["fa", "fb"],
      Event.rerunEnv (feature_env_var f) ∈
        (build_package ⟨"root", "foo", "pkg", "x86_64", "sources", "mypkg"⟩
          ⟨none, none, none, none, none, none, none, none, none⟩
          ⟨none, some ["fa", "fb"], none, none, none, none, none, none,
           none⟩ ⟨[], []⟩ []).1.takeWhile (fun e => !e.isFilterFeatures)) ∧
    Event.filterFeatures ∈
      (build_package ⟨"root", "foo", "pkg", "x86_64", "sources", "mypkg"⟩
        ⟨none, none, none, none, none, none, none, none, none⟩
        ⟨none, some ["fa", "fb"], none, none, none, none, none, none, none⟩
        ⟨[], []⟩ []).1 :=
  claim_C2_feature_signal_emission
    ⟨"root", "foo", "pkg", "x86_64", "sources", "mypkg"⟩
    ⟨none, none, none, none, none, none, none, none, none⟩
    ⟨none, some ["fa", "fb"], none, none, none, none, none, none, none⟩
    ⟨[], []⟩ [] ["fa", "fb"] rfl rfl (by decide)

/-- A list not containing `x` contributes no count for the
equals-`x` predicate. -/
theorem countP_eq_zero_of_not_mem {l : List String} {x : String}
    (hx : x ∉ l) : l.countP (fun q => decide (q = x)) = 0 := by
  rw [List.countP_eq_zero]
  intro q hq
  simp only [decide_eq_true_eq]
  exact fun hh => hx (hh ▸ hq)

/-- **C7 (counterexample)** The claim says every file path read during a
build invocation is emitted as a file-path dependency signal exactly once,
in particular the variant manifest.  At this concrete input the package
pipeline reads the variant manifest `root/variants/foo/Cargo.toml` once but
emits zero file-path signals for it (the only `rerun-if-changed` lines are
the relative `Cargo.toml` and the spec file), refuting the claim. -/
theorem claim_C7_counterexample :
    ((build_package ⟨"root", "foo", "pkg", "x86_64", "sources", "mypkg"⟩
        ⟨none, none, none, none, none, none, none, none, none⟩
        ⟨none, none, none, none, none, none, none, none, none⟩
        ⟨[], []⟩ []).1.countP
      (Event.isReadManifest "root/variants/foo/Cargo.toml") = 1) ∧
    ((build_package ⟨"root", "foo", "pkg", "x86_64", "sources", "mypkg"⟩
        ⟨none, none, none, none, none, none, none, none, none⟩
        ⟨none, none, none, none, none, none, none, none, none⟩
        ⟨[], []⟩ []).1.countP
      (Event.isRerunFile "root/variants/foo/Cargo.toml") = 0) := by
  decide

/-- **C7 (amended)** Exactly-once dependency emission holds for every file
path the package pipeline reads *except* the variant manifest: the package
manifest (read once at `cargo_manifest_dir/Cargo.toml`) is covered exactly
once by the relative `Cargo.toml` signal that cargo resolves against the
package directory, and the spec file is signalled exactly once and read
once; the variant manifest, however, is read once and no file-path signal
is ever emitted for its path.  The disequality and non-membership
hypotheses say the three paths are distinct from one another and from the
crawled/source/patch paths, as they are in any real layout. -/
theorem claim_C7_read_paths (args : BuildPackageArgs)
    (vm m : ManifestInfo) (spec : SpecInfo) (crawled : List String)
    (h : supported_arch vm args.arch = Except.ok ())
    (hvppmp : variant_manifest_path args ≠
      joinPath args.cargo_manifest_dir "Cargo.toml")
    (hvpc : variant_manifest_path args ≠ "Cargo.toml")
    (hvpsf : variant_manifest_path args ≠ spec_file args m)
    (hvp_crawl : variant_manifest_path args ∉ crawled)
    (hvp_src : variant_manifest_path args ∉ spec.sources)
    (hvp_pat : variant_manifest_path args ∉ spec.patches)
    (hc_crawl : "Cargo.toml" ∉ crawled)
    (hc_src : "Cargo.toml" ∉ spec.sources)
    (hc_pat : "Cargo.toml" ∉ spec.patches)
    (hsfc : spec_file args m ≠ "Cargo.toml")
    (hsf_crawl : spec_file args m ∉ crawled)
    (hsf_src : spec_file args m ∉ spec.sources)
    (hsf_pat : spec_file args m ∉ spec.patches) :
    ((build_package args vm m spec crawled).1.countP
      (Event.isReadManifest (variant_manifest_path args)) = 1) ∧
    ((build_package args vm m spec crawled).1.countP
      (Event.isRerunFile (variant_manifest_path args)) = 0) ∧
    ((build_package args vm m spec crawled).1.countP
      (Event.isReadManifest (joinPath args.cargo_manifest_dir "Cargo.toml"))
      = 1) ∧
    ((build_package args vm m spec crawled).1.countP
      (Event.isRerunFile "Cargo.toml") = 1) ∧
    ((build_package args vm m spec crawled).1.countP
      (Event.isReadSpec (spec_file args m)) = 1) ∧
    ((build_package args vm m spec crawled).1.countP
      (Event.isRerunFile (spec_file args m)) = 1) := by
  refine ⟨?_, ?_, ?_, ?_, ?_, ?_⟩ <;>
    rw [countP_build_package args vm m spec crawled _ h rfl rfl
      (fun _ => rfl) (fun _ => rfl)] <;>
    cases m.package_features <;> cases m.source_groups <;>
    simp [Event.isReadManifest, Event.isRerunFile, Event.isReadSpec,
      List.countP_false, countP_eq_zero_of_not_mem,
      hvppmp, Ne.symm hvppmp, hvpc, Ne.symm hvpc, hvpsf, Ne.symm hvpsf,
      countP_eq_zero_of_not_mem hvp_crawl,
      countP_eq_zero_of_not_mem hvp_src,
      countP_eq_zero_of_not_mem hvp_pat,
      countP_eq_zero_of_not_mem hc_crawl,
      countP_eq_zero_of_not_mem hc_src,
      countP_eq_zero_of_not_mem hc_pat,
      hsfc, Ne.symm hsfc,
      countP_eq_zero_of_not_mem hsf_crawl,
      countP_eq_zero_of_not_mem hsf_src,
      countP_eq_zero_of_not_mem hsf_pat]

/-- Witness for C7 (amended) at a concrete input. -/
theorem claim_C7_witness :
    ((build_package ⟨"rootc", "fooc", "pkgc", "x86_64", "sources", "mypkg"⟩
        ⟨none, none, none, none, none, none, none, none, none⟩
        ⟨none, none, none, none, none, none, none, none, none⟩
        ⟨[], []⟩ []).1.countP
      (Event.isReadManifest (variant_manifest_path
        ⟨"rootc", "fooc", "pkgc", "x86_64", "sources", "mypkg"⟩)) = 1) ∧
    ((build_package ⟨"rootc", "fooc", "pkgc", "x86_64", "sources", "mypkg"⟩
        ⟨none, none, none, none, none, none, none, none, none⟩
        ⟨none, none, none, none, none, none, none, none, none⟩
        ⟨[], []⟩ []).1.countP
      (Event.isRerunFile (variant_manifest_path
        ⟨"rootc", "fooc", "pkgc", "x86_64", "sources", "mypkg"⟩)) = 0) ∧
    ((build_package ⟨"rootc", "fooc", "pkgc", "x86_64", "sources", "mypkg"⟩
        ⟨none, none, none, none, none, none, none, none, none⟩
        ⟨none, none, none, none, none, none, none, none, none⟩
        ⟨[], []⟩ []).1.countP
      (Event.isReadManifest (joinPath "pkgc" "Cargo.toml")) = 1) ∧
    ((build_package ⟨"rootc", "fooc", "pkgc", "x86_64", "sources", "mypkg"⟩
        ⟨none, none, none, none, none, none, none, none, none⟩
        ⟨none, none, none, none, none, none, none, none, none⟩
        ⟨[], []⟩ []).1.countP (Event.isRerunFile "Cargo.toml") = 1) ∧
    ((build_package ⟨"rootc", "fooc", "pkgc", "x86_64", "sources", "mypkg"⟩
        ⟨none, none, none, none, none, none, none, none, none⟩
        ⟨none, none, none, none, none, none, none, none, none⟩
        ⟨[], []⟩ []).1.countP
      (Event.isReadSpec (spec_file
        ⟨"rootc", "fooc", "pkgc", "x86_64", "sources", "mypkg"⟩
        ⟨none, none, none, none, none, none, none, none, none⟩)) = 1) ∧
    ((build_package ⟨"rootc", "fooc", "pkgc", "x86_64", "sources", "mypkg"⟩
        ⟨none, none, none, none, none, none, none, none, none⟩
        ⟨none, none, none, none, none, none, none, none, none⟩
        ⟨[], []⟩ []).1.countP
      (Event.isRerunFile (spec_file
        ⟨"rootc", "fooc", "pkgc", "x86_64", "sources", "mypkg"⟩
        ⟨none, none, none, none, none, none, none, none, none⟩)) = 1) :=
  claim_C7_read_paths
    ⟨"rootc", "fooc", "pkgc", "x86_64", "sources", "mypkg"⟩
    ⟨none, none, none, none, none, none, none, none, none⟩
    ⟨none, none, none, none, none, none, none, none, none⟩
    ⟨[], []⟩ [] rfl (by decide) (by decide) (by decide)
    (by decide) (by decide) (by decide) (by decide) (by decide) (by decide)
    (by decide) (by decide) (by decide) (by decide)

end Buildsys
